import Mathlib

set_option maxHeartbeats 1000000

/-!
Shallow embedding of the mterp interpreter scaffolding in
`runtime/interpreter/mterp/arm/header.S` (register-file access macros,
instruction fetch macros, PC-export macros, opcode dispatch macros) and of
the locked-dump guard `operator<<` in `runtime/base/dumpable-inl.h`.

Memory reached through `rFP` (vreg values), `rREFS` (reference shadow) and
the frame's negative-offset fields is modelled as explicit state; ARM machine
registers written by a macro are returned alongside the state.
-/

/-- Pointwise update of a word-indexed memory array. -/
def upd (f : Nat → Nat) (i v : Nat) : Nat → Nat := fun j => if j = i then v else f j

/-- The per-frame register file: `rFP` points at the vreg value array and
`rREFS` at the parallel reference-shadow array; both are arrays of 32-bit
slots indexed by vreg number (the assembly scales the index by 4 bytes). -/
structure RegFile where
  values : Nat → Nat
  refShadow : Nat → Nat

/-- GET_VREG reg, vreg — `ldr reg, [rFP, vreg, lsl #2]`: load the value slot. -/
def GET_VREG (vreg : Nat) (s : RegFile) : Nat := s.values vreg

/-- SET_VREG reg, vreg — `str reg, [rFP, vreg, lsl #2]; mov reg, #0;
str reg, [rREFS, vreg, lsl #2]`.  Returns the new state together with the
final contents of the source register `reg` (zeroed by the `mov`). -/
def SET_VREG (reg vreg : Nat) (s : RegFile) : RegFile × Nat :=
  let s1 : RegFile := { s with values := upd s.values vreg reg }
  let reg1 : Nat := 0
  let s2 : RegFile := { s1 with refShadow := upd s1.refShadow vreg reg1 }
  (s2, reg1)

/-- SET_VREG_OBJECT reg, vreg, tmpreg — `str reg, [rFP, vreg, lsl #2];
str reg, [rREFS, vreg, lsl #2]`.  The `tmpreg` parameter is unused by the
macro body; `reg` is left unchanged. -/
def SET_VREG_OBJECT (reg vreg : Nat) (s : RegFile) : RegFile × Nat :=
  let s1 : RegFile := { s with values := upd s.values vreg reg }
  let s2 : RegFile := { s1 with refShadow := upd s1.refShadow vreg reg }
  (s2, reg)

/-- SET_VREG_SHADOW reg, vreg — `str reg, [rREFS, vreg, lsl #2]`. -/
def SET_VREG_SHADOW (reg vreg : Nat) (s : RegFile) : RegFile :=
  { s with refShadow := upd s.refShadow vreg reg }

/-- CLEAR_SHADOW_PAIR vreg, tmp1, tmp2 — `mov tmp1, #0; add tmp2, vreg, #1;
SET_VREG_SHADOW tmp1, vreg; SET_VREG_SHADOW tmp1, tmp2`.  Returns the new
state together with the final contents of `tmp1` and `tmp2`. -/
def CLEAR_SHADOW_PAIR (vreg : Nat) (s : RegFile) : RegFile × Nat × Nat :=
  let tmp1 : Nat := 0
  let tmp2 : Nat := vreg + 1
  let s1 := SET_VREG_SHADOW tmp1 vreg s
  let s2 := SET_VREG_SHADOW tmp1 tmp2 s1
  (s2, tmp1, tmp2)

/-- One register-file mutation drawn from the three macro families the
shadow-tracking invariant ranges over: `setPrimitive i v` is SET_VREG with the
source register holding `v`, `setReference i r` is SET_VREG_OBJECT with the
source register holding `r`, and `clearShadowPair i` is CLEAR_SHADOW_PAIR. -/
inductive RegOp where
  | setPrimitive : Nat → Nat → RegOp
  | setReference : Nat → Nat → RegOp
  | clearShadowPair : Nat → RegOp
deriving DecidableEq

/-- Apply one operation through the corresponding macro. -/
def applyOp (s : RegFile) : RegOp → RegFile
  | RegOp.setPrimitive i v => (SET_VREG v i s).1
  | RegOp.setReference i r => (SET_VREG_OBJECT r i s).1
  | RegOp.clearShadowPair i => (CLEAR_SHADOW_PAIR i s).1

/-- Run a sequence of operations left to right. -/
def runOps (s : RegFile) : List RegOp → RegFile
  | [] => s
  | op :: rest => runOps (applyOp s op) rest

/-- Whether an operation writes slot `i`: SET_VREG / SET_VREG_OBJECT write the
value and shadow slot of their vreg; CLEAR_SHADOW_PAIR at `j` writes the
shadow slots `j` and `j+1`. -/
def RegOp.writesSlot (i : Nat) : RegOp → Bool
  | RegOp.setPrimitive j _ => j == i
  | RegOp.setReference j _ => j == i
  | RegOp.clearShadowPair j => j == i || j + 1 == i

/-- The last operation in the sequence that writes slot `i`, if any. -/
def lastWriteOp (i : Nat) : List RegOp → Option RegOp
  | [] => none
  | op :: rest =>
      match lastWriteOp i rest with
      | some o => some o
      | none => if op.writesSlot i then some op else none

/-- Is this operation a `setReference` (of any value, null included)? -/
def RegOp.isSetReference : RegOp → Bool
  | RegOp.setReference _ _ => true
  | _ => false

/-- Is this operation a `setReference` of a non-null reference? -/
def RegOp.isNonNullRefWrite : RegOp → Bool
  | RegOp.setReference _ r => r != 0
  | _ => false

/-- A freshly allocated register file: every value and shadow slot zero. -/
def rf0 : RegFile := { values := fun _ => 0, refShadow := fun _ => 0 }

/-- Program-counter tracker state: `rPC` as a cursor counted in 16-bit code
units into the method's instruction stream.  The assembly keeps a byte
pointer and scales unit counts by 2 in every fetch macro; the halfword
stream is indexed directly here. -/
structure PCState where
  code : List Nat
  cursor : Nat

/-- FETCH_INST — `ldrh rINST, [rPC]`: read the code unit at the cursor
without moving the cursor. -/
def FETCH_INST (s : PCState) : Nat := s.code.getD s.cursor 0

/-- FETCH_ADVANCE_INST count — `ldrh rINST, [rPC, #((count)*2)]!`:
pre-indexed addressing with writeback, so `rPC` first moves forward by
`count` code units and the load then reads at the new `rPC`.  Returns the
fetched unit and the new state. -/
def FETCH_ADVANCE_INST (count : Nat) (s : PCState) : Nat × PCState :=
  let s1 : PCState := { s with cursor := s.cursor + count }
  (s1.code.getD s1.cursor 0, s1)

/-- The frame fields reached from `rFP` at negative offsets by the PC-export
macros: the direct cursor copy at OFF_FP_DEX_PC_PTR, the logical instruction
offset at OFF_FP_DEX_PC, and the code-item pointer at OFF_FP_CODE_ITEM. -/
structure FrameMem where
  dexPCPtr : Int
  dexPC : Int
  codeItem : Int

/-- EXPORT_PC — `str rPC, [rFP, #OFF_FP_DEX_PC_PTR]`. -/
def EXPORT_PC (rPC : Int) (f : FrameMem) : FrameMem := { f with dexPCPtr := rPC }

/-- EXPORT_DEX_PC tmp — `ldr tmp, [rFP, #OFF_FP_CODE_ITEM];
str rPC, [rFP, #OFF_FP_DEX_PC_PTR]; add tmp, #CODEITEM_INSNS_OFFSET;
sub tmp, rPC, tmp; asr tmp, #1; str tmp, [rFP, #OFF_FP_DEX_PC]`.
The constant CODEITEM_INSNS_OFFSET comes from `asm_support.h` (outside this
core) and is passed in as `insnsOffset`; `asr #1` is floor division by 2. -/
def EXPORT_DEX_PC (insnsOffset rPC : Int) (f : FrameMem) : FrameMem :=
  let tmp0 : Int := f.codeItem
  let f1 : FrameMem := { f with dexPCPtr := rPC }
  let tmp1 : Int := tmp0 + insnsOffset
  let tmp2 : Int := rPC - tmp1
  let tmp3 : Int := Int.fdiv tmp2 2
  { f1 with dexPC := tmp3 }

/-- GET_INST_OPCODE reg — `and reg, rINST, #255`: extract the opcode byte. -/
def GET_INST_OPCODE (rINST : Nat) : Nat := rINST &&& 255

/-- GOTO_OPCODE reg — `add pc, rIBASE, reg, lsl #handler_size_bits`: the
handler address for opcode `reg`.  The stride exponent `handler_size_bits`
is a build-time template constant and is passed in as `bits`. -/
def GOTO_OPCODE (bits rIBASE reg : Nat) : Nat := rIBASE + (reg <<< bits)

/-- Events observable while streaming a `MutatorLockedDumpable`. -/
inductive DumpEvent where
  | assertSharedHeldEvent
  | dumpInvokedEvent
deriving DecidableEq

/-- Modelled from the spec: `Locks::mutator_lock_->AssertSharedHeld(Thread::Current())`
lives in `base/mutex.h`, which is not under src/.  It asserts that the
current thread holds the mutator lock in shared mode and aborts the
operation (returns `none`) when the hold is absent. -/
def AssertSharedHeld (sharedHeld : Bool) : List DumpEvent × Option Unit :=
  ([DumpEvent.assertSharedHeldEvent], if sharedHeld then some () else none)

/-- Modelled from the spec: `rhs.Dump(os)` on the wrapped object; `T::Dump`
is an external collaborator outside this core.  It appends the object's dump
output `lines` to the stream `os`. -/
def DumpTo (lines os : List Nat) : List DumpEvent × List Nat :=
  ([DumpEvent.dumpInvokedEvent], os ++ lines)

/-- `operator<<(std::ostream&, const MutatorLockedDumpable<T>&)` from
`runtime/base/dumpable-inl.h`: assert the shared mutator-lock hold, then
invoke `Dump` on the wrapped object and return the stream.  Result is the
event trace paired with the stream contents, `none` when the assertion
aborted before `Dump` ran. -/
def mutatorLockedDumpableOut (sharedHeld : Bool) (lines os : List Nat) :
    List DumpEvent × Option (List Nat) :=
  let p1 := AssertSharedHeld sharedHeld
  match p1.2 with
  | none => (p1.1, none)
  | some _ =>
      let p2 := DumpTo lines os
      (p1.1 ++ p2.1, some p2.2)

/-- The shadow slot `i` after one operation, as a function of the operation
and the previous shadow contents. -/
lemma applyOp_refShadow (s : RegFile) (op : RegOp) (i : Nat) :
    (applyOp s op).refShadow i =
      if op.writesSlot i then
        (match op with
         | RegOp.setReference _ r => r
         | _ => 0)
      else s.refShadow i := by
  cases op with
  | setPrimitive j v =>
      by_cases h : i = j
      · simp [applyOp, SET_VREG, RegOp.writesSlot, upd, h]
      · have h' : ¬ j = i := fun hji => h hji.symm
        simp [applyOp, SET_VREG, RegOp.writesSlot, upd, h, h']
  | setReference j r =>
      by_cases h : i = j
      · simp [applyOp, SET_VREG_OBJECT, RegOp.writesSlot, upd, h]
      · have h' : ¬ j = i := fun hji => h hji.symm
        simp [applyOp, SET_VREG_OBJECT, RegOp.writesSlot, upd, h, h']
  | clearShadowPair j =>
      by_cases h1 : i = j + 1
      · simp [applyOp, CLEAR_SHADOW_PAIR, SET_VREG_SHADOW, RegOp.writesSlot, upd, h1]
      · by_cases h2 : i = j
        · have hne : ¬ j = j + 1 := by omega
          simp [applyOp, CLEAR_SHADOW_PAIR, SET_VREG_SHADOW, RegOp.writesSlot, upd,
            h2, hne]
        · have h1' : ¬ j + 1 = i := fun hji => h1 hji.symm
          have h2' : ¬ j = i := fun hji => h2 hji.symm
          simp [applyOp, CLEAR_SHADOW_PAIR, SET_VREG_SHADOW, RegOp.writesSlot, upd,
            h1, h2, h1', h2']

/-- The shadow slot `i` after a whole operation sequence is decided by the
last operation of the sequence writing slot `i`; with no such operation the
initial contents survive. -/
lemma runOps_refShadow (ops : List RegOp) (i : Nat) (s : RegFile) :
    (runOps s ops).refShadow i =
      match lastWriteOp i ops with
      | some (RegOp.setReference _ r) => r
      | some _ => 0
      | none => s.refShadow i := by
  induction ops generalizing s with
  | nil => rfl
  | cons op rest ih =>
      have hrun : runOps s (op :: rest) = runOps (applyOp s op) rest := rfl
      rw [hrun, ih]
      cases hlast : lastWriteOp i rest with
      | some o =>
          simp only [lastWriteOp, hlast]
          cases o <;> rfl
      | none =>
          simp only [lastWriteOp, hlast]
          rw [applyOp_refShadow]
          by_cases hw : op.writesSlot i
          · simp only [hw, if_true]
            cases op <;> rfl
          · simp [hw]

/-- C1 as stated: shadow non-null iff the last write was a setReference,
with no non-null side condition on the stored reference.  It fails on
`setReference 0 0` (storing the null reference): SET_VREG_OBJECT stores the
same word into the value and shadow slot, so the shadow slot is null even
though the most recent write to the slot was a setReference. -/
theorem shadow_iff_lastSetReference_counterexample :
    ¬ ((((runOps rf0 [RegOp.setReference 0 0]).refShadow 0 ≠ 0)) ↔
        ((lastWriteOp 0 [RegOp.setReference 0 0]).any RegOp.isSetReference = true)) := by
  decide

/-- C1 (amended): starting from a register file whose shadow slot `i` is
null, after any sequence of setPrimitive / setReference / clearShadowPair
operations the shadow slot `refShadow[i]` is non-null iff the most recent
operation writing slot `i` was a setReference of a NON-NULL reference
(clearShadowPair at `j` counts as a write to slots `j` and `j+1`). -/
theorem shadow_tracks_last_nonnull_ref_write (ops : List RegOp) (i : Nat)
    (s : RegFile) (h : s.refShadow i = 0) :
    ((runOps s ops).refShadow i ≠ 0) ↔
      ((lastWriteOp i ops).any RegOp.isNonNullRefWrite = true) := by
  rw [runOps_refShadow]
  cases hlast : lastWriteOp i ops with
  | none => simp [h, Option.any]
  | some o =>
      cases o with
      | setPrimitive j v => simp [Option.any, RegOp.isNonNullRefWrite]
      | setReference j r =>
          simp only [Option.any, RegOp.isNonNullRefWrite]
          constructor
          · intro hr
            simpa [bne_iff_ne] using hr
          · intro hr
            simpa [bne_iff_ne] using hr
      | clearShadowPair j => simp [Option.any, RegOp.isNonNullRefWrite]

/-- Witness for the amended C1 at a concrete input: a fresh register file,
the sequence `[setReference 1 42, setPrimitive 0 5]`, slot 1. -/
theorem shadow_tracks_last_nonnull_ref_write_witness :
    rf0.refShadow 1 = 0 ∧
      (((runOps rf0 [RegOp.setReference 1 42, RegOp.setPrimitive 0 5]).refShadow 1 ≠ 0) ↔
        ((lastWriteOp 1 [RegOp.setReference 1 42, RegOp.setPrimitive 0 5]).any
          RegOp.isNonNullRefWrite = true)) :=
  ⟨rfl, shadow_tracks_last_nonnull_ref_write
    [RegOp.setReference 1 42, RegOp.setPrimitive 0 5] 1 rf0 rfl⟩

/-- Scenario B's concrete 3-unit instruction stream with the cursor at
unit 0. -/
def pcScenarioB : PCState := { code := [0x1234, 0x5678, 0x9ABC], cursor := 0 }

/-- C2 as stated: the claim says `fetchAdvance(1)` from unit 0 of
`[0x1234, 0x5678, 0x9ABC]` returns 0x1234.  It does not: FETCH_ADVANCE_INST
uses pre-indexed addressing with writeback, so the cursor moves first and
the load reads the unit at the NEW cursor, 0x5678. -/
theorem fetchAdvance_scenarioB_counterexample :
    ¬ ((FETCH_ADVANCE_INST 1 pcScenarioB).1 = 0x1234) := by
  decide

/-- C2 (amended): `fetchAdvance(count)` moves the cursor forward by `count`
16-bit units and then reads the unit at the new cursor; in Scenario B,
`fetchAdvance(1)` from unit 0 returns 0x5678 (not 0x1234) and leaves the
cursor at unit 1, and subsequent `fetch()` calls, which do not move the
cursor, return 0x5678 every time. -/
theorem fetchAdvance_moves_then_reads :
    (∀ (s : PCState) (count : Nat),
        (FETCH_ADVANCE_INST count s).2.cursor = s.cursor + count ∧
        (FETCH_ADVANCE_INST count s).2.code = s.code ∧
        (FETCH_ADVANCE_INST count s).1 = s.code.getD (s.cursor + count) 0) ∧
      (FETCH_ADVANCE_INST 1 pcScenarioB).1 = 0x5678 ∧
      (FETCH_ADVANCE_INST 1 pcScenarioB).2.cursor = 1 ∧
      FETCH_INST (FETCH_ADVANCE_INST 1 pcScenarioB).2 = 0x5678 ∧
      FETCH_INST (FETCH_ADVANCE_INST 1 pcScenarioB).2 =
        FETCH_INST (FETCH_ADVANCE_INST 1 pcScenarioB).2 :=
  ⟨fun _ _ => ⟨rfl, rfl, rfl⟩, rfl, rfl, rfl, rfl⟩

/-- A concrete frame used to refute C3: the logical dex-pc field holds 7,
the code item sits at address 100, the cursor is at 200. -/
def frameC3 : FrameMem := { dexPCPtr := 0, dexPC := 7, codeItem := 100 }

/-- C3 as stated: the claim says EXPORT_PC copies the cursor into BOTH
export fields.  It does not: EXPORT_PC is a single store to
OFF_FP_DEX_PC_PTR, so the logical OFF_FP_DEX_PC field keeps its stale value
(7 here) instead of the current instruction offset that EXPORT_DEX_PC
would compute ((200 - (100 + 16)) / 2 = 42). -/
theorem exportPC_both_fields_counterexample :
    (EXPORT_PC 200 frameC3).dexPC ≠ (EXPORT_DEX_PC 16 200 frameC3).dexPC := by
  decide

/-- C3 (amended): EXPORT_PC copies the cursor only into the direct-cursor
field `exportedPCPointer` (OFF_FP_DEX_PC_PTR) and leaves the logical
`exportedPC` field (OFF_FP_DEX_PC) unchanged; it is the separate
EXPORT_DEX_PC macro that stores the cursor into the pointer field and the
halfword offset `(rPC - (codeItem + insnsOffset)) asr 1` into the logical
field. -/
theorem exportPC_writes_only_pointer_field (rPC : Int) (f : FrameMem) :
    (EXPORT_PC rPC f).dexPCPtr = rPC ∧
      (EXPORT_PC rPC f).dexPC = f.dexPC ∧
      (EXPORT_PC rPC f).codeItem = f.codeItem ∧
      (∀ insnsOffset : Int,
        (EXPORT_DEX_PC insnsOffset rPC f).dexPCPtr = rPC ∧
        (EXPORT_DEX_PC insnsOffset rPC f).dexPC =
          Int.fdiv (rPC - (f.codeItem + insnsOffset)) 2) :=
  ⟨rfl, rfl, rfl, fun _ => ⟨rfl, rfl⟩⟩

/-- C4: dispatch is total over the 8-bit opcode space: the opcode byte
extracted by GET_INST_OPCODE is the low byte (< 256, equal to the word mod
256); the handler address `rIBASE + opcode * 2^bits` computed by
GOTO_OPCODE is injective in the opcode and lies inside the 256-entry table
`[rIBASE, rIBASE + 256 * 2^bits)`; and opcodes 0x00 and 0xFF resolve to
distinct addresses exactly `255 * 2^bits` apart. -/
theorem dispatch_total_over_opcode_byte (bits rIBASE rINST b1 b2 : Nat)
    (h : GOTO_OPCODE bits rIBASE b1 = GOTO_OPCODE bits rIBASE b2) :
    b1 = b2 ∧
      GET_INST_OPCODE rINST < 256 ∧
      GET_INST_OPCODE rINST = rINST % 256 ∧
      rIBASE ≤ GOTO_OPCODE bits rIBASE (GET_INST_OPCODE rINST) ∧
      GOTO_OPCODE bits rIBASE (GET_INST_OPCODE rINST) < rIBASE + 256 * 2 ^ bits ∧
      GOTO_OPCODE bits rIBASE 255 = GOTO_OPCODE bits rIBASE 0 + 255 * 2 ^ bits ∧
      GOTO_OPCODE bits rIBASE 0 ≠ GOTO_OPCODE bits rIBASE 255 := by
  have hmask : GET_INST_OPCODE rINST = rINST % 256 := by
    have h8 := Nat.and_pow_two_sub_one_eq_mod rINST 8
    norm_num at h8
    exact h8
  have hlt : GET_INST_OPCODE rINST < 256 := by
    rw [hmask]; exact Nat.mod_lt _ (by norm_num)
  have hpow : 0 < 2 ^ bits := Nat.pos_pow_of_pos bits (by norm_num)
  refine ⟨?_, hlt, hmask, ?_, ?_, ?_, ?_⟩
  · have h' : b1 * 2 ^ bits = b2 * 2 ^ bits := by
      have := Nat.add_left_cancel h
      simpa [Nat.shiftLeft_eq] using this
    exact Nat.eq_of_mul_eq_mul_right hpow h'
  · exact Nat.le_add_right _ _
  · have : GET_INST_OPCODE rINST * 2 ^ bits < 256 * 2 ^ bits :=
      Nat.mul_lt_mul_of_lt_of_le hlt (Nat.le_refl _) hpow
    simpa [GOTO_OPCODE, Nat.shiftLeft_eq] using Nat.add_lt_add_left this rIBASE
  · simp [GOTO_OPCODE, Nat.shiftLeft_eq, Nat.add_assoc]
  · intro hcontra
    have h' : (0 : Nat) * 2 ^ bits = 255 * 2 ^ bits := by
      have := Nat.add_left_cancel hcontra
      simpa [Nat.shiftLeft_eq] using this
    have : (0 : Nat) = 255 := Nat.eq_of_mul_eq_mul_right hpow h'
    exact absurd this (by norm_num)

/-- Witness for C4 at a concrete input: stride exponent 7 (128-byte
handlers), base 1000, instruction word 0x129F, equal opcodes 3 and 3. -/
theorem dispatch_total_over_opcode_byte_witness :
    3 = 3 ∧
      GET_INST_OPCODE 0x129F < 256 ∧
      GET_INST_OPCODE 0x129F = 0x129F % 256 ∧
      1000 ≤ GOTO_OPCODE 7 1000 (GET_INST_OPCODE 0x129F) ∧
      GOTO_OPCODE 7 1000 (GET_INST_OPCODE 0x129F) < 1000 + 256 * 2 ^ 7 ∧
      GOTO_OPCODE 7 1000 255 = GOTO_OPCODE 7 1000 0 + 255 * 2 ^ 7 ∧
      GOTO_OPCODE 7 1000 0 ≠ GOTO_OPCODE 7 1000 255 :=
  dispatch_total_over_opcode_byte 7 1000 0x129F 3 3 rfl

/-- C5: CLEAR_SHADOW_PAIR leaves both shadow slots of the pair null,
whatever they held before. -/
theorem clearShadowPair_clears_both (s : RegFile) (vreg : Nat) :
    ((CLEAR_SHADOW_PAIR vreg s).1).refShadow vreg = 0 ∧
      ((CLEAR_SHADOW_PAIR vreg s).1).refShadow (vreg + 1) = 0 := by
  constructor
  · have hne : ¬ vreg = vreg + 1 := by omega
    simp [CLEAR_SHADOW_PAIR, SET_VREG_SHADOW, upd, hne]
  · simp [CLEAR_SHADOW_PAIR, SET_VREG_SHADOW, upd]

/-- C6 (Scenario A): on a fresh 4-register frame, `setReference(2, objA)`
with `objA = 0xABC` followed by `setPrimitive(2, 5)` yields
`get(2) = 5` and a null shadow slot 2: the primitive store overwrites the
reference in the value slot and clears the shadow slot. -/
theorem primitive_overwrites_reference_scenarioA :
    GET_VREG 2 ((SET_VREG 5 2 ((SET_VREG_OBJECT 0xABC 2 rf0).1)).1) = 5 ∧
      ((SET_VREG 5 2 ((SET_VREG_OBJECT 0xABC 2 rf0).1)).1).refShadow 2 = 0 := by
  decide

/-- C7: EXPORT_PC is idempotent: with the cursor unchanged, running it twice
leaves the frame (both export fields included) exactly as running it once. -/
theorem exportPC_idempotent (rPC : Int) (f : FrameMem) :
    EXPORT_PC rPC (EXPORT_PC rPC f) = EXPORT_PC rPC f := rfl

/-- C8: the locked stream-output for a MutatorLockedDumpable first asserts
the shared mutator-lock hold and only then invokes Dump: the assertion event
opens every trace, the dump event occurs iff the shared hold is present, and
the stream output is produced iff the shared hold is present. -/
theorem lockedDump_asserts_before_dump (sharedHeld : Bool) (lines os : List Nat) :
    ((mutatorLockedDumpableOut sharedHeld lines os).1).head? =
        some DumpEvent.assertSharedHeldEvent ∧
      ((DumpEvent.dumpInvokedEvent ∈ (mutatorLockedDumpableOut sharedHeld lines os).1) ↔
        sharedHeld = true) ∧
      (((mutatorLockedDumpableOut sharedHeld lines os).2 = some (os ++ lines)) ↔
        sharedHeld = true) := by
  cases sharedHeld <;>
    simp [mutatorLockedDumpableOut, AssertSharedHeld, DumpTo]

/-- C9: SET_VREG clobbers its source register — the macro zeroes `reg` in
order to clear the shadow slot, so after `SET_VREG reg, vreg` the register
holds 0 — while SET_VREG_OBJECT leaves its source register unchanged. -/
theorem setVReg_clobbers_source (reg vreg : Nat) (s : RegFile) :
    (SET_VREG reg vreg s).2 = 0 ∧ (SET_VREG_OBJECT reg vreg s).2 = reg :=
  ⟨rfl, rfl⟩

/-- C10: CLEAR_SHADOW_PAIR touches only the two shadow slots of the pair:
EVERY slot of the values array is unchanged (the pair slots `vreg` and
`vreg + 1` included), and every shadow slot other than `vreg` and `vreg + 1`
is unchanged. -/
theorem clearShadowPair_frame (s : RegFile) (vreg j : Nat) :
    ((CLEAR_SHADOW_PAIR vreg s).1).values j = s.values j ∧
      (j ≠ vreg → j ≠ vreg + 1 →
        ((CLEAR_SHADOW_PAIR vreg s).1).refShadow j = s.refShadow j) := by
  refine ⟨rfl, fun h1 h2 => ?_⟩
  simp [CLEAR_SHADOW_PAIR, SET_VREG_SHADOW, upd, h1, h2]

/-- Witness for C10 at a concrete input: clearing the pair at vreg 1 leaves
the value slot 1 of the pair itself and the whole slot 5 alone. -/
theorem clearShadowPair_frame_witness :
    ((CLEAR_SHADOW_PAIR 1 rf0).1).values 1 = rf0.values 1 ∧
      ((CLEAR_SHADOW_PAIR 1 rf0).1).values 5 = rf0.values 5 ∧
      ((CLEAR_SHADOW_PAIR 1 rf0).1).refShadow 5 = rf0.refShadow 5 :=
  ⟨(clearShadowPair_frame rf0 1 1).1, (clearShadowPair_frame rf0 1 5).1,
    (clearShadowPair_frame rf0 1 5).2 (by decide) (by decide)⟩
